import Mathlib

/-!
Verification of the cooperative thread coordinator and the asynchronous
buffered log writer of the `nik` utility library.

The C++ sources are shallowly embedded as follows.

* `Event` objects (Util/Event.cpp) are manual-reset signals; an allocated
  event is a `Bool` holding its signaled state, and a (possibly null)
  event handle is an `Option Bool` (`none` models a null pointer).
* The re-entrant `ThreadCoord` template (Util/ThreadObj.h) is embedded
  at two granularities.  The coarse model (`TCState`) treats `Run`'s
  entry section as one aggregate transition (`ThreadCoord.RunEnter`) and
  is used for the single-call effect of `Run` and for the loop/exit
  behaviour (`ThreadCoord.RunStep`).  The statement-granularity model
  (`TCFState`, `ThreadCoordFine`) additionally cuts the entry section at
  the source's statement boundaries — `m_IsRunning = true`, the lazy
  event creation, `Reset()` — because on a re-run the window between the
  flag assignment and `Reset()` is observable.  In both, `SignalStop`
  and `WaitForStop` are the operations other threads invoke, and the
  client work function is supplied as an oracle
  `uf : Nat → Bool → Bool × Bool`: call number `k` with the current
  continuation flag `c` yields `(return value, flag value left by the
  callee)`, matching the C++ signature `bool Run(bool& continueThread)`.
* The one-shot `SimpleThreadCoord` (Util/ThreadObj.cpp) is embedded the
  same way; its operations can fail (`throw` / null dereference), so they
  return `Except`.
* The `Logger` / `Logger::LogImpl` pair (Util/Logger.h, Util/Logger.cpp)
  is a state record `LogSys` holding the two accumulators, the drain
  thread's local buffer, a tiny file store, and the drain thread's program
  counter; producer operations, the drain loop's steps and the destructor
  steps are labels of a deterministic executor, so concrete interleavings
  of the owner thread and the drain thread are executable schedules.
* Mutex acquisition with a bounded timeout (Util/Mutex.cpp) can succeed,
  time out, or fail unexpectedly; the outcome is an oracle `LockOutcome`
  because it depends on the other threads' timing.
-/

namespace Nik

/-! ## Events (Util/Event.cpp)

An allocated manual-reset event is its signaled state; `Event.Create`
returns `none` on failure, because `Event::Create` catches the
construction error and returns a null pointer ("For now, just return 0").
A fresh event starts non-signaled (`CreateEvent` is passed `false`). -/

/-- Result of `Event::Create`: `some handle` on success, `none` when the
construction failed and the error was caught inside `Create`. The `ok`
oracle tells whether the underlying `CreateEvent` call succeeds. -/
def Event.Create (ok : Bool) : Option (Option Bool) :=
  if ok then some (some false) else none

/-! ## The re-entrant ThreadCoord (Util/ThreadObj.h, lines 259-444) -/

/-- Program counter of the coordinator thread inside `ThreadCoord::Run`. -/
inductive TCPc where
  /-- No `Run` invocation is in progress. -/
  | idle
  /-- Inside the `while` loop, about to invoke the work function. -/
  | loop
  /-- The loop has exited; the next statement is `m_IsRunning = false`. -/
  | exitClear
  /-- The next statement is `m_ThreadStoppedEvent->SetEvent()`. -/
  | exitSignal
  deriving DecidableEq, Repr

/-- The fields of a `ThreadCoord` instance plus the coordinator thread's
control state. `allocs` counts `Event::Create` calls, so that lazy
allocation ("create on first `Run` only") is observable. -/
structure TCState where
  stopEv : Option Bool
  stoppedEv : Option Bool
  running : Bool
  pc : TCPc
  cont : Bool
  ufCalls : Nat
  allocs : Nat
  deriving DecidableEq, Repr

/-- A `ThreadCoord` that was just constructed: no events, not running. -/
def tcInit : TCState :=
  { stopEv := none, stoppedEv := none, running := false,
    pc := .idle, cont := true, ufCalls := 0, allocs := 0 }

namespace ThreadCoord

/-- `ThreadCoord::Reset` (line 418): clear both events to non-signaled.
`ClearEvent` on an allocated event stores `false`; a null event is left
as `none` (the source would dereference null there; `Reset` is only
reached with allocated events on every path `Run` takes). -/
def Reset (s : TCState) : TCState :=
  { s with stopEv := s.stopEv.map (fun _ => false),
           stoppedEv := s.stoppedEv.map (fun _ => false) }

/-- Crash outcomes of `ThreadCoord::Run`'s entry section. `initFailure`
is the spec's InitializationFailure taxonomy entry; the source never
produces it — on allocation failure it dereferences the null event
inside `Reset` instead. -/
inductive Crash where
  | nullDeref
  | initFailure
  deriving DecidableEq, Repr

/-- Entry section of `ThreadCoord::Run` (lines 327-348), with the outcome
of the two `Event::Create` calls made explicit.  If already running the
call is a logged no-op.  Otherwise `m_IsRunning` is set, the events are
created if `m_StopEvent` is null (only the first time), `Reset` clears
both events, and the loop is entered with `continueThread = true`.
If either `Event::Create` fails it returns null; `Run` only `assert`s the
result, so `Reset` then dereferences a null event: modeled as
`Crash.nullDeref`. -/
def RunEnterAlloc (ok1 ok2 : Bool) (s : TCState) : Except Crash TCState :=
  if s.running then .ok s
  else
    let s1 := { s with running := true }
    if s1.stopEv = none then
      match Event.Create ok1, Event.Create ok2 with
      | some e1, some e2 =>
          let s2 := { s1 with stopEv := e1, stoppedEv := e2,
                              allocs := s1.allocs + 2 }
          .ok { Reset s2 with cont := true, pc := .loop }
      | _, _ => .error .nullDeref
    else
      .ok { Reset s1 with cont := true, pc := .loop }

/-- Entry section of `ThreadCoord::Run` when event allocation succeeds
(the only path on which `Run` proceeds without crashing). -/
def RunEnter (s : TCState) : TCState :=
  match RunEnterAlloc true true s with
  | .ok t => t
  | .error _ => s

/-- One atomic step of `ThreadCoord::Run`'s loop and exit section
(lines 350-366), taken by the coordinator thread.  A `.loop` step is one
iteration: invoke the work function (which may rewrite the continuation
flag and returns whether to keep going), then, still inside the loop
body, poll the stop event with a zero wait and clear the flag if it is
signaled.  The two exit statements `m_IsRunning = false` and
`m_ThreadStoppedEvent->SetEvent()` are separate steps, in source order. -/
def RunStep (uf : Nat → Bool → Bool × Bool) (s : TCState) : TCState :=
  match s.pc with
  | .idle => s
  | .loop =>
      let r := uf s.ufCalls s.cont
      let s1 := { s with ufCalls := s.ufCalls + 1 }
      if r.1 && r.2 then
        if s1.stopEv = some true then { s1 with cont := false }
        else { s1 with cont := r.2 }
      else
        { s1 with cont := r.2, pc := .exitClear }
  | .exitClear => { s with running := false, pc := .exitSignal }
  | .exitSignal =>
      { s with stoppedEv := s.stoppedEv.map (fun _ => true), pc := .idle }

/-- `ThreadCoord::SignalStop` (lines 372-382): a logged no-op when not
running, otherwise `SetEvent` on the stop event. -/
def SignalStop (s : TCState) : TCState :=
  if s.running = false then s
  else { s with stopEv := s.stopEv.map (fun _ => true) }

/-- State effect of `ThreadCoord::WaitForStop` (lines 388-401): returns
immediately when not running; otherwise re-asserts the stop event ("Set
again just in case") and then blocks on the stopped event, which changes
no state. -/
def WaitForStop (s : TCState) : TCState :=
  if s.running = false then s
  else { s with stopEv := s.stopEv.map (fun _ => true) }

/-- `ThreadCoord::IsRunning` (lines 408-411). -/
def IsRunning (s : TCState) : Bool :=
  s.running

end ThreadCoord

/-- The actions the coordinator's threads can interleave: one atomic step
of the coordinator thread inside `Run`, or an invocation of `Run`,
`SignalStop` or `WaitForStop` by another thread.  A `callRun` label takes
effect only when no previous `Run` invocation is still executing
(`pc = .idle`): `Run` executes on the coordinator thread itself, so a new
invocation needs the previous one to have returned. -/
inductive TCLabel where
  | step
  | callRun
  | callSignalStop
  | callWaitForStop
  deriving DecidableEq, Repr

/-- Apply one label. -/
def TCState.applyLabel (uf : Nat → Bool → Bool × Bool) :
    TCLabel → TCState → TCState
  | .step, s => ThreadCoord.RunStep uf s
  | .callRun, s => if s.pc = .idle then ThreadCoord.RunEnter s else s
  | .callSignalStop, s => ThreadCoord.SignalStop s
  | .callWaitForStop, s => ThreadCoord.WaitForStop s

/-- Deterministic executor: run a schedule of labels. -/
def TCState.exec (uf : Nat → Bool → Bool × Bool)
    (ls : List TCLabel) (s : TCState) : TCState :=
  ls.foldl (fun t l => TCState.applyLabel uf l t) s

/-! ### Invariants of the coordinator's transition system -/

lemma runEnter_running (s : TCState) (h : s.running = true) :
    ThreadCoord.RunEnter s = s := by
  simp [ThreadCoord.RunEnter, ThreadCoord.RunEnterAlloc, h]

lemma runEnter_not_running (s : TCState) (h : s.running = false) :
    ThreadCoord.RunEnter s =
      if s.stopEv = none then
        { s with stopEv := some false, stoppedEv := some false,
                 running := true, pc := .loop, cont := true,
                 allocs := s.allocs + 2 }
      else
        { s with stopEv := s.stopEv.map (fun _ => false),
                 stoppedEv := s.stoppedEv.map (fun _ => false),
                 running := true, pc := .loop, cont := true } := by
  by_cases hse : s.stopEv = none <;>
    simp [ThreadCoord.RunEnter, ThreadCoord.RunEnterAlloc, h, hse,
      Event.Create, ThreadCoord.Reset]

lemma runStep_loop_calls (uf : Nat → Bool → Bool × Bool) (s : TCState)
    (h : s.pc = TCPc.loop) :
    (ThreadCoord.RunStep uf s).ufCalls = s.ufCalls + 1 := by
  simp only [ThreadCoord.RunStep, h]
  split
  · split <;> rfl
  · rfl

/-! ## Statement-granularity model of ThreadCoord::Run's entry

The coarse model above treats `Run`'s entry section as one atomic
transition; that is adequate for the single-call effect of `Run`
(allocation counts, event clearing, the no-op on a running coordinator)
but it erases an interleaving the source permits: in the source,
`m_IsRunning = true` (line 336) executes before `Reset()` (line 347), so
on a *re-run* there is a window in which the stale stopped event from
the previous cycle is still signaled while the running flag is already
true.  The following second model cuts the entry section at statement
granularity so that window is reachable. -/

/-- Program counter of the coordinator thread at statement granularity:
the next statement is the lazy event creation (line 338), the `Reset()`
call (line 347), a loop iteration, or one of the two exit statements. -/
inductive TCFPc where
  | idle
  | create
  | reset
  | loop
  | exitClear
  | exitSignal
  deriving DecidableEq, Repr

/-- `ThreadCoord` state for the statement-granularity model; fields as
in `TCState`. -/
structure TCFState where
  stopEv : Option Bool
  stoppedEv : Option Bool
  running : Bool
  pc : TCFPc
  cont : Bool
  ufCalls : Nat
  allocs : Nat
  deriving DecidableEq, Repr

/-- A freshly constructed coordinator, statement-granularity model. -/
def tcfInit : TCFState :=
  { stopEv := none, stoppedEv := none, running := false,
    pc := .idle, cont := true, ufCalls := 0, allocs := 0 }

namespace ThreadCoordFine

/-- Lines 330-336 of `ThreadCoord::Run`: the already-running check (a
logged no-op when true) and the `m_IsRunning = true` assignment.  Event
creation and `Reset()` have *not* executed yet — they are later steps of
the coordinator thread. -/
def RunCheck (s : TCFState) : TCFState :=
  if s.running then s
  else { s with running := true, pc := .create }

/-- One statement-level step of the coordinator thread inside `Run`:
the lazy event creation (lines 338-345, success path), the `Reset()`
call plus `continueThread = true` (lines 347-354), one loop iteration
(lines 355-364), and the two exit statements (lines 365-366) in source
order. -/
def FineStep (uf : Nat → Bool → Bool × Bool) (s : TCFState) : TCFState :=
  match s.pc with
  | .idle => s
  | .create =>
      if s.stopEv = none then
        { s with stopEv := some false, stoppedEv := some false,
                 allocs := s.allocs + 2, pc := .reset }
      else { s with pc := .reset }
  | .reset =>
      { s with stopEv := s.stopEv.map (fun _ => false),
               stoppedEv := s.stoppedEv.map (fun _ => false),
               cont := true, pc := .loop }
  | .loop =>
      let r := uf s.ufCalls s.cont
      let s1 := { s with ufCalls := s.ufCalls + 1 }
      if r.1 && r.2 then
        if s1.stopEv = some true then { s1 with cont := false }
        else { s1 with cont := r.2 }
      else
        { s1 with cont := r.2, pc := .exitClear }
  | .exitClear => { s with running := false, pc := .exitSignal }
  | .exitSignal =>
      { s with stoppedEv := s.stoppedEv.map (fun _ => true), pc := .idle }

/-- `ThreadCoord::SignalStop` on the statement-granularity state. -/
def SignalStop (s : TCFState) : TCFState :=
  if s.running = false then s
  else { s with stopEv := s.stopEv.map (fun _ => true) }

/-- State effect of `ThreadCoord::WaitForStop` on the
statement-granularity state. -/
def WaitForStop (s : TCFState) : TCFState :=
  if s.running = false then s
  else { s with stopEv := s.stopEv.map (fun _ => true) }

/-- `ThreadCoord::IsRunning` on the statement-granularity state. -/
def IsRunning (s : TCFState) : Bool :=
  s.running

end ThreadCoordFine

/-- Interleavable actions of the statement-granularity system.  As in
the coarse model, a `callRun` label takes effect only once the previous
`Run` invocation has returned (`pc = .idle`). -/
inductive TCFLabel where
  | step
  | callRun
  | callSignalStop
  | callWaitForStop
  deriving DecidableEq, Repr

/-- Apply one statement-granularity label. -/
def TCFState.applyLabel (uf : Nat → Bool → Bool × Bool) :
    TCFLabel → TCFState → TCFState
  | .step, s => ThreadCoordFine.FineStep uf s
  | .callRun, s => if s.pc = .idle then ThreadCoordFine.RunCheck s else s
  | .callSignalStop, s => ThreadCoordFine.SignalStop s
  | .callWaitForStop, s => ThreadCoordFine.WaitForStop s

/-- Deterministic executor for the statement-granularity system. -/
def TCFState.exec (uf : Nat → Bool → Bool × Bool)
    (ls : List TCFLabel) (s : TCFState) : TCFState :=
  ls.foldl (fun t l => TCFState.applyLabel uf l t) s

/-- The statement-granularity invariant: the running flag is true
exactly between the `m_IsRunning = true` entry statement and the
flag-clearing exit statement, and a signaled stopped event can coexist
with a true running flag only inside the re-run entry window (after
`m_IsRunning = true`, before `Reset()` has completed). -/
def TCFInv (s : TCFState) : Prop :=
  (s.running = true ↔ (s.pc = TCFPc.create ∨ s.pc = TCFPc.reset
    ∨ s.pc = TCFPc.loop ∨ s.pc = TCFPc.exitClear))
  ∧ (s.stoppedEv = some true → s.running = true →
      (s.pc = TCFPc.create ∨ s.pc = TCFPc.reset))

lemma tcfInv_init : TCFInv tcfInit := by
  constructor <;> simp [tcfInit]

lemma tcfInv_applyLabel (uf : Nat → Bool → Bool × Bool) (l : TCFLabel)
    (s : TCFState) (h : TCFInv s) : TCFInv (TCFState.applyLabel uf l s) := by
  obtain ⟨hIff, hWin⟩ := h
  cases l
  case step =>
    show TCFInv (ThreadCoordFine.FineStep uf s)
    cases hpc : s.pc
    case idle => simpa [ThreadCoordFine.FineStep, hpc] using ⟨hIff, hWin⟩
    case create =>
      have hrun : s.running = true := hIff.mpr (Or.inl hpc)
      simp only [ThreadCoordFine.FineStep, hpc]
      split
      · exact ⟨by simp [hrun], by simp⟩
      · exact ⟨by simp [hrun], fun _ _ => Or.inr rfl⟩
    case reset =>
      have hrun : s.running = true := hIff.mpr (Or.inr (Or.inl hpc))
      simp only [ThreadCoordFine.FineStep, hpc]
      refine ⟨by simp [hrun], ?_⟩
      cases h3 : s.stoppedEv <;> simp [h3]
    case loop =>
      have hrun : s.running = true :=
        hIff.mpr (Or.inr (Or.inr (Or.inl hpc)))
      have hne : ¬ (s.stoppedEv = some true) := by
        intro h2
        rcases hWin h2 hrun with h3 | h3 <;> rw [hpc] at h3 <;> exact nomatch h3
      simp only [ThreadCoordFine.FineStep, hpc]
      split
      · split <;> exact ⟨by simp [hrun], fun h2 => absurd h2 hne⟩
      · exact ⟨by simp [hrun], fun h2 => absurd h2 hne⟩
    case exitClear =>
      simp only [ThreadCoordFine.FineStep, hpc]
      exact ⟨by simp, fun _ h2 => by simp at h2⟩
    case exitSignal =>
      have hrun : s.running = false := by
        cases h2 : s.running
        · rfl
        · exact absurd (hIff.mp h2) (by simp [hpc])
      simp only [ThreadCoordFine.FineStep, hpc]
      exact ⟨by simp [hrun], fun _ h2 => absurd h2 (by simp [hrun])⟩
  case callRun =>
    show TCFInv (if s.pc = .idle then ThreadCoordFine.RunCheck s else s)
    split
    case isTrue hpc =>
      have hrun : s.running = false := by
        cases h2 : s.running
        · rfl
        · exact absurd (hIff.mp h2) (by simp [hpc])
      simp only [ThreadCoordFine.RunCheck, hrun]
      exact ⟨by simp, fun _ _ => Or.inl rfl⟩
    case isFalse => exact ⟨hIff, hWin⟩
  case callSignalStop =>
    show TCFInv (ThreadCoordFine.SignalStop s)
    unfold ThreadCoordFine.SignalStop
    split
    · exact ⟨hIff, hWin⟩
    · exact ⟨hIff, hWin⟩
  case callWaitForStop =>
    show TCFInv (ThreadCoordFine.WaitForStop s)
    unfold ThreadCoordFine.WaitForStop
    split
    · exact ⟨hIff, hWin⟩
    · exact ⟨hIff, hWin⟩

lemma tcfInv_exec (uf : Nat → Bool → Bool × Bool) (ls : List TCFLabel)
    (s : TCFState) (h : TCFInv s) : TCFInv (TCFState.exec uf ls s) := by
  induction ls generalizing s with
  | nil => exact h
  | cons l ls ih => exact ih _ (tcfInv_applyLabel uf l s h)

lemma tcf_no_run (uf : Nat → Bool → Bool × Bool) (ls : List TCFLabel)
    (s : TCFState) (h1 : s.running = false) (h2 : s.pc = .idle)
    (h3 : TCFLabel.callRun ∉ ls) :
    (TCFState.exec uf ls s).running = false
    ∧ (TCFState.exec uf ls s).pc = .idle := by
  induction ls generalizing s with
  | nil => exact ⟨h1, h2⟩
  | cons l ls ih =>
    have h3' : TCFLabel.callRun ∉ ls := fun hm => h3 (List.mem_cons_of_mem _ hm)
    have hl : l ≠ TCFLabel.callRun := fun he => h3 (he ▸ List.mem_cons_self _ _)
    cases l
    case step =>
      have hs : ThreadCoordFine.FineStep uf s = s := by
        simp [ThreadCoordFine.FineStep, h2]
      show (TCFState.exec uf ls (ThreadCoordFine.FineStep uf s)).running = false
        ∧ (TCFState.exec uf ls (ThreadCoordFine.FineStep uf s)).pc = .idle
      rw [hs]
      exact ih s h1 h2 h3'
    case callRun => exact absurd rfl hl
    case callSignalStop =>
      have hs : ThreadCoordFine.SignalStop s = s := by
        simp [ThreadCoordFine.SignalStop, h1]
      show (TCFState.exec uf ls (ThreadCoordFine.SignalStop s)).running = false
        ∧ (TCFState.exec uf ls (ThreadCoordFine.SignalStop s)).pc = .idle
      rw [hs]
      exact ih s h1 h2 h3'
    case callWaitForStop =>
      have hs : ThreadCoordFine.WaitForStop s = s := by
        simp [ThreadCoordFine.WaitForStop, h1]
      show (TCFState.exec uf ls (ThreadCoordFine.WaitForStop s)).running = false
        ∧ (TCFState.exec uf ls (ThreadCoordFine.WaitForStop s)).pc = .idle
      rw [hs]
      exact ih s h1 h2 h3'

/-! ### Claims about the re-entrant coordinator -/

/-- The schedule driving one full `Run` cycle at statement granularity
and then re-invoking `Run`: check/set flag; create events; `Reset()`;
one loop iteration whose work function asks to stop; clear flag; signal
stopped; then the second `Run`'s check/set flag — stopping right inside
the re-run entry window. -/
def c4Sched : List TCFLabel :=
  [TCFLabel.callRun, TCFLabel.step, TCFLabel.step, TCFLabel.step,
   TCFLabel.step, TCFLabel.step, TCFLabel.callRun]

/-- Claim C4 counterexample: after a completed cycle, a re-invoked `Run`
executes `m_IsRunning = true` (line 336) before `Reset()` (line 347)
clears the stale stopped event, so the system reaches a state in which
the stopped event is still signaled, `IsRunning()` reads true, and the
coordinator thread has not yet re-entered the work loop.  A waiter that
observes the stale stopped signal in this window also observes
`IsRunning() == true`, and the flag is true outside the work loop —
contradicting the claim. -/
theorem C4_stale_stopped_window :
    (TCFState.exec (fun _ _ => (false, true)) c4Sched tcfInit).stoppedEv
      = some true
    ∧ ThreadCoordFine.IsRunning
        (TCFState.exec (fun _ _ => (false, true)) c4Sched tcfInit) = true
    ∧ (TCFState.exec (fun _ _ => (false, true)) c4Sched tcfInit).pc
      = TCFPc.create :=
  ⟨by decide, by decide, by decide⟩

/-- Claim C4 (amended): the running flag is false before the first
`Run`; it is true exactly while the coordinator thread is between the
`m_IsRunning = true` entry statement and the flag-clearing exit
statement; the step that asserts the stopped signal always executes with
the flag already false; and whenever the stopped event is signaled while
the flag is true, the coordinator thread is inside the re-run entry
window (after `m_IsRunning = true`, before `Reset()` has completed) —
outside that window a waiter that has observed the stopped signal never
observes `IsRunning() == true`. -/
theorem C4_running_flag_fine (uf : Nat → Bool → Bool × Bool)
    (ls : List TCFLabel) :
    (TCFLabel.callRun ∉ ls →
       ThreadCoordFine.IsRunning (TCFState.exec uf ls tcfInit) = false)
    ∧ (ThreadCoordFine.IsRunning (TCFState.exec uf ls tcfInit) = true ↔
        ((TCFState.exec uf ls tcfInit).pc = TCFPc.create
         ∨ (TCFState.exec uf ls tcfInit).pc = TCFPc.reset
         ∨ (TCFState.exec uf ls tcfInit).pc = TCFPc.loop
         ∨ (TCFState.exec uf ls tcfInit).pc = TCFPc.exitClear))
    ∧ ((TCFState.exec uf ls tcfInit).pc = TCFPc.exitSignal →
       ThreadCoordFine.IsRunning (TCFState.exec uf ls tcfInit) = false)
    ∧ ((TCFState.exec uf ls tcfInit).stoppedEv = some true →
       ThreadCoordFine.IsRunning (TCFState.exec uf ls tcfInit) = true →
       ((TCFState.exec uf ls tcfInit).pc = TCFPc.create
        ∨ (TCFState.exec uf ls tcfInit).pc = TCFPc.reset)) := by
  obtain ⟨hIff, hWin⟩ := tcfInv_exec uf ls tcfInit tcfInv_init
  refine ⟨?_, hIff, ?_, hWin⟩
  · intro hnr
    exact (tcf_no_run uf ls tcfInit rfl rfl hnr).1
  · intro hpc
    cases h2 : (TCFState.exec uf ls tcfInit).running
    · exact h2
    · exact absurd (hIff.mp h2) (by simp [hpc])

/-- Witness for the amended C4 at concrete schedules: with no `Run` the
flag stays false; a schedule that stops at the signal-asserting exit
statement already has the flag false; and the stale-signal re-run
schedule lands inside the entry window. -/
theorem C4_running_flag_fine_witness :
    ThreadCoordFine.IsRunning (TCFState.exec (fun _ _ => (false, true))
      [TCFLabel.callSignalStop] tcfInit) = false
    ∧ ThreadCoordFine.IsRunning (TCFState.exec (fun _ _ => (false, true))
      [TCFLabel.callRun, TCFLabel.step, TCFLabel.step, TCFLabel.step,
       TCFLabel.step] tcfInit) = false
    ∧ ((TCFState.exec (fun _ _ => (false, true)) c4Sched tcfInit).pc
        = TCFPc.create
       ∨ (TCFState.exec (fun _ _ => (false, true)) c4Sched tcfInit).pc
        = TCFPc.reset) :=
  ⟨(C4_running_flag_fine (fun _ _ => (false, true))
     [TCFLabel.callSignalStop]).1 (by decide),
   (C4_running_flag_fine (fun _ _ => (false, true))
     [TCFLabel.callRun, TCFLabel.step, TCFLabel.step, TCFLabel.step,
      TCFLabel.step]).2.2.1 (by decide),
   (C4_running_flag_fine (fun _ _ => (false, true)) c4Sched).2.2.2
     (by decide) (by decide)⟩

/-- Claim C5: `Run` on an already-running coordinator is an observable
no-op; the first invocation lazily allocates the stop and stopped events
(two `Event::Create` calls); a subsequent invocation allocates nothing
and only clears both events to the non-signaled state before re-entering
the loop; and after a completed cycle (running flag back to false) a new
`Run` invokes the work function again. -/
theorem C5_rerun_after_stop :
    (∀ s : TCState, s.running = true → ThreadCoord.RunEnter s = s)
    ∧ (∀ s : TCState, s.running = false → s.stopEv = none →
        ((ThreadCoord.RunEnter s).allocs = s.allocs + 2
         ∧ (ThreadCoord.RunEnter s).stopEv = some false
         ∧ (ThreadCoord.RunEnter s).stoppedEv = some false
         ∧ (ThreadCoord.RunEnter s).pc = TCPc.loop
         ∧ (ThreadCoord.RunEnter s).running = true))
    ∧ (∀ (s : TCState) (b b' : Bool), s.running = false →
        s.stopEv = some b → s.stoppedEv = some b' →
        ((ThreadCoord.RunEnter s).allocs = s.allocs
         ∧ (ThreadCoord.RunEnter s).stopEv = some false
         ∧ (ThreadCoord.RunEnter s).stoppedEv = some false
         ∧ (ThreadCoord.RunEnter s).pc = TCPc.loop
         ∧ (ThreadCoord.RunEnter s).running = true))
    ∧ (∀ (uf : Nat → Bool → Bool × Bool) (s : TCState), s.running = false →
        (ThreadCoord.RunStep uf (ThreadCoord.RunEnter s)).ufCalls
          = s.ufCalls + 1) := by
  refine ⟨fun s h => runEnter_running s h, ?_, ?_, ?_⟩
  · intro s h hse
    rw [runEnter_not_running s h]
    simp [hse]
  · intro s b b' h hse hsde
    rw [runEnter_not_running s h]
    simp [hse, hsde]
  · intro uf s h
    rw [runEnter_not_running s h]
    rw [runStep_loop_calls uf _ (by split <;> rfl)]
    split <;> rfl

/-- Witness for C5: a concrete completed `Run`/stop cycle, after which a
new `Run` plus one loop step raises the work-function call count from 1
to 2; and the first activation from the fresh state allocates both
events. -/
theorem C5_rerun_after_stop_witness :
    ((ThreadCoord.RunEnter tcInit).allocs = tcInit.allocs + 2
     ∧ (ThreadCoord.RunEnter tcInit).stopEv = some false)
    ∧ (ThreadCoord.RunStep (fun _ _ => (false, true))
        (ThreadCoord.RunEnter
          (TCState.exec (fun _ _ => (false, true))
            [TCLabel.callRun, TCLabel.step, TCLabel.step, TCLabel.step]
            tcInit))).ufCalls
      = (TCState.exec (fun _ _ => (false, true))
          [TCLabel.callRun, TCLabel.step, TCLabel.step, TCLabel.step]
          tcInit).ufCalls + 1 :=
  ⟨⟨(C5_rerun_after_stop.2.1 tcInit rfl rfl).1,
    (C5_rerun_after_stop.2.1 tcInit rfl rfl).2.1⟩,
   C5_rerun_after_stop.2.2.2 (fun _ _ => (false, true)) _ (by decide)⟩

/-- Claim C6: for the re-entrant coordinator, zero, one or many
`SignalStop` calls followed by `WaitForStop` leave the same state,
because `WaitForStop` itself re-asserts the stop signal before blocking;
`WaitForStop` on a non-running coordinator returns immediately; once the
stop event is set, the coordinator thread exits the loop and reaches the
idle (fully stopped) control point within four steps — at most two more
work-function calls — with the running flag false and the stopped event
signaled; and the idle point is absorbing for the coordinator thread, so
the loop exits exactly once per cycle. -/
theorem C6_idempotent_stop (uf : Nat → Bool → Bool × Bool) :
    (∀ (s : TCState) (k : Nat),
       ThreadCoord.WaitForStop (Nat.iterate ThreadCoord.SignalStop k s)
         = ThreadCoord.WaitForStop s)
    ∧ (∀ s : TCState, s.running = false → ThreadCoord.WaitForStop s = s)
    ∧ (∀ s : TCState, s.pc = TCPc.loop → s.stopEv = some true →
        s.stoppedEv.isSome = true →
        (∀ k, (uf k false).2 = false) →
        ((TCState.exec uf [TCLabel.step, TCLabel.step, TCLabel.step,
            TCLabel.step] s).pc = TCPc.idle
         ∧ ThreadCoord.IsRunning (TCState.exec uf [TCLabel.step,
            TCLabel.step, TCLabel.step, TCLabel.step] s) = false
         ∧ (TCState.exec uf [TCLabel.step, TCLabel.step, TCLabel.step,
            TCLabel.step] s).stoppedEv = some true))
    ∧ (∀ s : TCState, s.pc = TCPc.idle → ThreadCoord.RunStep uf s = s) := by
  refine ⟨?_, ?_, ?_, ?_⟩
  · intro s k
    induction k with
    | zero => rfl
    | succ k ih =>
      rw [Function.iterate_succ_apply', ← ih]
      generalize Nat.iterate ThreadCoord.SignalStop k s = t
      unfold ThreadCoord.SignalStop ThreadCoord.WaitForStop
      by_cases h : t.running = false
      · simp [h]
      · cases ht : t.stopEv <;> simp [h, ht]
  · intro s h
    simp [ThreadCoord.WaitForStop, h]
  · intro s hpc hstop hsde hm
    obtain ⟨b, hb⟩ : ∃ b, s.stoppedEv = some b := by
      cases h : s.stoppedEv
      · rw [h] at hsde; simp at hsde
      · exact ⟨_, rfl⟩
    have hexec : TCState.exec uf [TCLabel.step, TCLabel.step, TCLabel.step,
        TCLabel.step] s
        = ThreadCoord.RunStep uf (ThreadCoord.RunStep uf
            (ThreadCoord.RunStep uf (ThreadCoord.RunStep uf s))) := rfl
    rcases hr1 : uf s.ufCalls s.cont with ⟨r1, c1⟩
    by_cases h1 : (r1 && c1) = true
    · have step1 : ThreadCoord.RunStep uf s
          = { s with ufCalls := s.ufCalls + 1, cont := false,
                     pc := TCPc.loop } := by
        simp [ThreadCoord.RunStep, hpc, hr1, h1, hstop]
      rcases hr2 : uf (s.ufCalls + 1) false with ⟨r2, c2⟩
      have hc2 : c2 = false := by
        have h2 := hm (s.ufCalls + 1)
        rw [hr2] at h2
        exact h2
      have step2 : ThreadCoord.RunStep uf
          { s with ufCalls := s.ufCalls + 1, cont := false,
                   pc := TCPc.loop }
          = { s with ufCalls := s.ufCalls + 1 + 1, cont := c2,
                     pc := TCPc.exitClear } := by
        simp [ThreadCoord.RunStep, hr2, hc2]
      have step3 : ThreadCoord.RunStep uf
          { s with ufCalls := s.ufCalls + 1 + 1, cont := c2,
                   pc := TCPc.exitClear }
          = { s with ufCalls := s.ufCalls + 1 + 1, cont := c2,
                     pc := TCPc.exitSignal, running := false } := by
        simp [ThreadCoord.RunStep]
      have step4 : ThreadCoord.RunStep uf
          { s with ufCalls := s.ufCalls + 1 + 1, cont := c2,
                   pc := TCPc.exitSignal, running := false }
          = { s with ufCalls := s.ufCalls + 1 + 1, cont := c2,
                     pc := TCPc.idle, running := false,
                     stoppedEv := some true } := by
        simp [ThreadCoord.RunStep, hb]
      rw [hexec, step1, step2, step3, step4]
      exact ⟨rfl, rfl, rfl⟩
    · have step1 : ThreadCoord.RunStep uf s
          = { s with ufCalls := s.ufCalls + 1, cont := c1,
                     pc := TCPc.exitClear } := by
        simp [ThreadCoord.RunStep, hpc, hr1, h1]
      have step2 : ThreadCoord.RunStep uf
          { s with ufCalls := s.ufCalls + 1, cont := c1,
                   pc := TCPc.exitClear }
          = { s with ufCalls := s.ufCalls + 1, cont := c1,
                     pc := TCPc.exitSignal, running := false } := by
        simp [ThreadCoord.RunStep]
      have step3 : ThreadCoord.RunStep uf
          { s with ufCalls := s.ufCalls + 1, cont := c1,
                   pc := TCPc.exitSignal, running := false }
          = { s with ufCalls := s.ufCalls + 1, cont := c1,
                     pc := TCPc.idle, running := false,
                     stoppedEv := some true } := by
        simp [ThreadCoord.RunStep, hb]
      have step4 : ThreadCoord.RunStep uf
          { s with ufCalls := s.ufCalls + 1, cont := c1,
                   pc := TCPc.idle, running := false,
                   stoppedEv := some true }
          = { s with ufCalls := s.ufCalls + 1, cont := c1,
                     pc := TCPc.idle, running := false,
                     stoppedEv := some true } := by
        simp [ThreadCoord.RunStep]
      rw [hexec, step1, step2, step3, step4]
      exact ⟨rfl, rfl, rfl⟩
  · intro s hpc
    simp [ThreadCoord.RunStep, hpc]

/-- Witness for C6 at a concrete running state: three `SignalStop` calls
followed by `WaitForStop` equal a bare `WaitForStop`; four coordinator
steps after the stop event is set reach the stopped state; and
`WaitForStop` on the fresh (non-running) coordinator returns it
unchanged. -/
theorem C6_idempotent_stop_witness :
    (ThreadCoord.WaitForStop (Nat.iterate ThreadCoord.SignalStop 3
        { tcInit with running := true, pc := TCPc.loop,
                      stopEv := some true, stoppedEv := some false })
      = ThreadCoord.WaitForStop
        { tcInit with running := true, pc := TCPc.loop,
                      stopEv := some true, stoppedEv := some false })
    ∧ (TCState.exec (fun _ c => (true, c)) [TCLabel.step, TCLabel.step,
        TCLabel.step, TCLabel.step]
        { tcInit with running := true, pc := TCPc.loop,
                      stopEv := some true, stoppedEv := some false }).pc
      = TCPc.idle
    ∧ ThreadCoord.WaitForStop tcInit = tcInit :=
  ⟨(C6_idempotent_stop (fun _ c => (true, c))).1
     { tcInit with running := true, pc := TCPc.loop,
                   stopEv := some true, stoppedEv := some false } 3,
   ((C6_idempotent_stop (fun _ c => (true, c))).2.2.1
     { tcInit with running := true, pc := TCPc.loop,
                   stopEv := some true, stoppedEv := some false }
     rfl rfl rfl (fun _ => rfl)).1,
   (C6_idempotent_stop (fun _ c => (true, c))).2.1 tcInit rfl⟩

/-! ## The one-shot SimpleThreadCoord (Util/ThreadObj.cpp) -/

/-- The event fields of a `SimpleThreadCoord` instance. -/
structure STCState where
  stopEv : Option Bool
  stoppedEv : Option Bool
  deriving DecidableEq, Repr

/-- Failure outcomes of `SimpleThreadCoord` operations: the explicit
`throw nik::Error` in `Run`, and the null-event dereference performed by
`SignalStop`/`WaitForStop` when invoked before any `Run` (the source
only `assert`s the event pointers). -/
inductive STCErr where
  | alreadyCreated
  | nullDeref
  deriving DecidableEq, Repr

namespace SimpleThreadCoord

/-- Entry section of `SimpleThreadCoord::Run` (lines 77-95): if either
event already exists the call throws
`"SimpleThreadCoord::Run->Events have already been created"`; otherwise
both events are created and the loop is entered. -/
def RunStart (s : STCState) : Except STCErr STCState :=
  if s.stopEv.isSome || s.stoppedEv.isSome then .error .alreadyCreated
  else .ok { stopEv := some false, stoppedEv := some false }

/-- `SimpleThreadCoord::SignalStop` (lines 120-125): `SetEvent` on the
stop event with no null check beyond an `assert` — a null dereference
when `Run` was never called. -/
def SignalStop (s : STCState) : Except STCErr STCState :=
  match s.stopEv with
  | none => .error .nullDeref
  | some _ => .ok { s with stopEv := some true }

/-- `SimpleThreadCoord::WaitForStop` (lines 130-137): re-asserts the stop
event then blocks on the stopped event; both dereference null when `Run`
was never called. -/
def WaitForStop (s : STCState) : Except STCErr STCState :=
  match s.stopEv with
  | none => .error .nullDeref
  | some _ =>
    match s.stoppedEv with
    | none => .error .nullDeref
    | some _ => .ok { s with stopEv := some true }

end SimpleThreadCoord

/-! ## The asynchronous buffered log writer (Util/Logger.cpp)

`LogSys` is the joint state of a `Logger`, its `LogImpl`, the drain
thread's local `outBuffer`, and a tiny name-indexed file store standing
for the file system.  An open `std::ofstream` is `openName = some n`;
writes append to `files n`; a write to a closed stream is discarded (the
stream just sets its fail bit). -/

/-- Program counter of the drain thread inside `LogImpl::LogThreadFunc`:
about to test `m_Continue`; about to move `m_Buffer` into the local
`outBuffer` under the mutex; about to write `outBuffer` to the file; or
returned. -/
inductive DrainPc where
  | check
  | grab
  | write
  | done
  deriving DecidableEq, Repr

/-- State of the logger subsystem. `lockAllocs` and `threadSpawns` count
`Mutex::Create` and `Thread::Create` calls made by `StartThread`, so
that "created on first activation only" is observable. -/
structure LogSys where
  os : String
  buffer : String
  outBuf : String
  files : String → String
  openName : Option String
  contFlag : Bool
  threadStarted : Bool
  dpc : DrainPc
  lockAllocs : Nat
  threadSpawns : Nat

/-- A freshly constructed logger over an empty file store. -/
def logInit : LogSys :=
  { os := "", buffer := "", outBuf := "", files := fun _ => "",
    openName := none, contFlag := false, threadStarted := false,
    dpc := .done, lockAllocs := 0, threadSpawns := 0 }

/-- `m_Of << t`: append `t` to the open file; a closed stream discards
the write. -/
def LogSys.emit (s : LogSys) (t : String) : LogSys :=
  match s.openName with
  | none => s
  | some n =>
    { s with files := fun m => if m = n then s.files m ++ t else s.files m }

/-- Outcome of a bounded `WaitForSingleObject` on the buffer mutex,
determined by the other threads' timing: the lock was granted, the wait
timed out, or the wait failed unexpectedly. -/
inductive LockOutcome where
  | acquired
  | timedOut
  | osFailure
  deriving DecidableEq, Repr

/-- The unexpected-wait-failure error thrown by `Mutex::Lock`. -/
inductive OSErr where
  | waitFailed
  deriving DecidableEq, Repr

/-- `Wait_Time_glob` (Logger.cpp line 14): the bounded wait, in ms,
`LogImpl::Write` passes to `Mutex::Lock`. -/
def Wait_Time_glob : Nat := 10

/-- `Mutex::Lock(timeOut)` (Mutex.cpp lines 150-172): true when the lock
is granted, false on timeout, and a thrown `nik::Error` when the wait
fails with any other status. -/
def Mutex.LockWait (outcome : LockOutcome) (timeOut : Nat) :
    Except OSErr Bool :=
  match outcome, timeOut with
  | .acquired, _ => .ok true
  | .timedOut, _ => .ok false
  | .osFailure, _ => .error .waitFailed

/-- The error thrown by `Logger::LogImpl::StartThread` when
`Mutex::Create` fails. -/
inductive LogInitErr where
  | initFailure
  deriving DecidableEq, Repr

namespace LogImpl

/-- `Logger::LogImpl::Write` (lines 382-396): try the buffer mutex with
the bounded `Wait_Time_glob` timeout; on timeout return false without
appending; on success append the text to `m_Buffer`, unlock, and return
true. -/
def Write (outcome : LockOutcome) (s : LogSys) (t : String) :
    Except OSErr (Bool × LogSys) :=
  match Mutex.LockWait outcome Wait_Time_glob with
  | .error e => .error e
  | .ok false => .ok (false, s)
  | .ok true => .ok (true, { s with buffer := s.buffer ++ t })

/-- `Logger::LogImpl::ForceWrite` (lines 370-377): move the front
accumulator `m_Os` into `m_Buffer`, write `m_Buffer` to the file, and
clear both. -/
def ForceWrite (s : LogSys) : LogSys :=
  let s1 := { s with buffer := s.buffer ++ s.os, os := "" }
  let s2 := s1.emit s1.buffer
  { s2 with buffer := "" }

/-- `Logger::LogImpl::CloseFile` (lines 355-365). -/
def CloseFile (s : LogSys) : Bool × LogSys :=
  match s.openName with
  | none => (false, s)
  | some _ => (true, { s with openName := none })

/-- `Logger::LogImpl::OpenFile` (lines 330-350): close the current file
if one is open, then open the named file.  `m_Of.open(fileName)` uses
the default `std::ios::out` mode, which truncates an existing file, so a
successful open resets the named file's content to empty. -/
def OpenFile (openOk : Bool) (n : String) (s : LogSys) : Bool × LogSys :=
  let s1 := if s.openName.isSome then (CloseFile s).2 else s
  if openOk then
    (true, { s1 with openName := some n,
                     files := fun m => if m = n then "" else s1.files m })
  else (false, s1)

/-- `Logger::LogImpl::StartThread` (lines 270-297): ignored when already
started; otherwise mark started, create the buffer mutex (throwing an
initialization error on failure), set `m_Continue`, and spawn the drain
thread. -/
def StartThread (lockOk : Bool) (s : LogSys) : Option LogInitErr × LogSys :=
  if s.threadStarted then (none, s)
  else
    let s1 := { s with threadStarted := true }
    if lockOk then
      (none, { s1 with lockAllocs := s1.lockAllocs + 1, contFlag := true,
                       threadSpawns := s1.threadSpawns + 1,
                       dpc := DrainPc.check })
    else (some .initFailure, s1)

/-- `Logger::LogImpl::~LogImpl` (lines 242-265) run with the drain
thread idle: a no-op when the thread was never started; otherwise clear
`m_Continue`, sleep one grace period, force-write the residual buffers
under the mutex, and close the file. -/
def dtor (s : LogSys) : LogSys :=
  if s.threadStarted = false then s
  else
    let s1 := { s with contFlag := false }
    let s2 := ForceWrite s1
    (CloseFile s2).2

end LogImpl

namespace Logger

/-- `Logger::SetFile` (lines 173-188): open the file (closing any prior
one first); on failure return false without starting the thread; on
success run `StartThread` — whose initialization error propagates to the
caller — and return true. -/
def SetFile (openOk lockOk : Bool) (n : String) (s : LogSys) :
    Except LogInitErr (Bool × LogSys) :=
  match LogImpl.OpenFile openOk n s with
  | (false, s1) => .ok (false, s1)
  | (true, s1) =>
    match LogImpl.StartThread lockOk s1 with
    | (some e, _) => .error e
    | (none, s2) => .ok (true, s2)

/-- `Logger::Flush` (lines 207-217): under the front lock, attempt
`LogImpl::Write` on `m_Os`; only if the write succeeded is `m_Os`
cleared — on timeout the text stays in `m_Os`. -/
def Flush (outcome : LockOutcome) (s : LogSys) : Except OSErr LogSys :=
  match LogImpl.Write outcome s s.os with
  | .error e => .error e
  | .ok (true, s1) => .ok { s1 with os := "" }
  | .ok (false, s1) => .ok s1

end Logger

/-- One step of the drain thread inside `LogImpl::LogThreadFunc`
(lines 302-325): test `m_Continue`; move `m_Buffer` into the local
`outBuffer` under the mutex; write `outBuffer` to the file and flush
(discarded if the file is closed), then sleep. -/
def drainStep (s : LogSys) : LogSys :=
  match s.dpc with
  | .check =>
    if s.contFlag then { s with dpc := .grab } else { s with dpc := .done }
  | .grab =>
    { s with outBuf := s.outBuf ++ s.buffer, buffer := "", dpc := .write }
  | .write => { s.emit s.outBuf with outBuf := "", dpc := .check }
  | .done => s

/-- Interleavable actions of the logger system: a producer append under
the front lock, a flush that wins the buffer mutex, one drain-thread
step, and the three phases of the destructor (clear `m_Continue` and
sleep; force-write under the mutex; close the file). -/
inductive LogLabel where
  | append (t : String)
  | flushOk
  | dstep
  | dtorBegin
  | dtorForce
  | dtorClose

/-- Apply one logger label. -/
def LogSys.applyLabel : LogLabel → LogSys → LogSys
  | .append t, s => { s with os := s.os ++ t }
  | .flushOk, s =>
    match Logger.Flush .acquired s with
    | .ok s1 => s1
    | .error _ => s
  | .dstep, s => drainStep s
  | .dtorBegin, s =>
    if s.threadStarted = false then s else { s with contFlag := false }
  | .dtorForce, s => LogImpl.ForceWrite s
  | .dtorClose, s => (LogImpl.CloseFile s).2

/-- Deterministic executor for logger schedules. -/
def LogSys.exec (ls : List LogLabel) (s : LogSys) : LogSys :=
  ls.foldl (fun t l => LogSys.applyLabel l t) s

/-! ## Records for the coordinator copy operations (claim C10) -/

/-- The data members of the re-entrant `ThreadCoord<CLIENT_FUNC>`. -/
structure ThreadCoordObj (F : Type) where
  stopEvent : Option Bool
  stoppedEvent : Option Bool
  userFunc : F
  isRunning : Bool

namespace ThreadCoordObj

/-- `ThreadCoord::ThreadCoord(const ThreadCoord&)` (lines 285-291): the
copy constructor copies only the work function; the new object has null
events and is not running. -/
def copyCtor {F : Type} (orig : ThreadCoordObj F) : ThreadCoordObj F :=
  { stopEvent := none, stoppedEvent := none,
    userFunc := orig.userFunc, isRunning := false }

/-- `ThreadCoord::operator=` (lines 299-303): copies only the work
function; the destination's events and running flag are untouched. -/
def assign {F : Type} (lhs rhs : ThreadCoordObj F) : ThreadCoordObj F :=
  { lhs with userFunc := rhs.userFunc }

/-- `ThreadCoord::ThreadCoord()` (lines 277-282): null events, not
running, default-constructed work function. -/
def mkDefault {F : Type} (f0 : F) : ThreadCoordObj F :=
  { stopEvent := none, stoppedEvent := none,
    userFunc := f0, isRunning := false }

end ThreadCoordObj

/-- The data members of `SimpleThreadCoord` relevant to assignment. -/
structure SimpleThreadCoordObj (F : Type) where
  stopEvent : Option Bool
  stoppedEvent : Option Bool
  userFunc : F

/-- `SimpleThreadCoord::operator=` (ThreadObj.cpp lines 49-57): "Do not
copy the events" — only the work function is copied. -/
def SimpleThreadCoordObj.assign {F : Type}
    (lhs rhs : SimpleThreadCoordObj F) : SimpleThreadCoordObj F :=
  { lhs with userFunc := rhs.userFunc }

/-- `ThreadObj::Run` (ThreadObj.h lines 168-184) receives the
coordinator by value (a copy construction) and assigns it to the
member coordinator, which the `ThreadObj` constructor default-built. -/
def ThreadObj.runAssign {F : Type} (threadCoord : ThreadCoordObj F)
    (userObj : ThreadCoordObj F) : ThreadCoordObj F :=
  threadCoord.assign (ThreadCoordObj.copyCtor userObj)

/-- Claim C7 (code evaluated at the failing input): when either
`Event::Create` call fails during the first `Run`, the error is caught
inside `Create` (which returns a null handle), `Run` only asserts the
result, and `Reset` then dereferences the null event — a crash, not an
initialization-failure error surfaced to the caller. -/
theorem C7_alloc_failure_crashes :
    ThreadCoord.RunEnterAlloc false true tcInit
      = Except.error ThreadCoord.Crash.nullDeref
    ∧ ThreadCoord.RunEnterAlloc true false tcInit
      = Except.error ThreadCoord.Crash.nullDeref
    ∧ ThreadCoord.RunEnterAlloc false false tcInit
      = Except.error ThreadCoord.Crash.nullDeref
    ∧ ThreadCoord.RunEnterAlloc false true tcInit
      ≠ Except.error ThreadCoord.Crash.initFailure := by
  refine ⟨rfl, rfl, rfl, fun h => ?_⟩
  have h2 := Except.error.inj h
  exact absurd h2 (by simp)

/-! ### Claims about the log writer -/

/-- The writer right after its first successful activation on file
`"log"`. -/
def c1Start : LogSys :=
  match Logger.SetFile true true "log" logInit with
  | .ok (_, t) => t
  | .error _ => logInit

/-- The losing schedule: a producer appends `"A"` and flushes it into
the drain buffer; the drain thread passes its `m_Continue` check and
moves the buffer into its local `outBuffer`, then is preempted; the
destructor clears `m_Continue`, its fixed 50 ms grace sleep elapses
before the drain thread runs again, it force-writes the (now empty)
accumulators and closes the file; the drain thread finally resumes and
writes its local `outBuffer` to the already-closed stream. -/
def c1Sched : List LogLabel :=
  [LogLabel.append "A", LogLabel.flushOk, LogLabel.dstep, LogLabel.dstep,
   LogLabel.dtorBegin, LogLabel.dtorForce, LogLabel.dtorClose,
   LogLabel.dstep, LogLabel.dstep]

/-- Claim C1 (code evaluated at the failing schedule): the destructor
synchronizes with the drain thread only through a fixed `Sleep(50)` (the
source notes "todo setup event on thread quit"), so when teardown races
with a drain iteration that has already moved the buffer into the drain
thread's local `outBuffer`, the appended byte reaches neither the file
nor any surviving buffer: after the schedule the file is empty and every
accumulator is empty, although the append and flush had succeeded. -/
theorem C1_teardown_race_loses_data :
    (LogSys.exec [LogLabel.append "A", LogLabel.flushOk] c1Start).buffer = "A"
    ∧ (LogSys.exec c1Sched c1Start).files "log" = ""
    ∧ (LogSys.exec c1Sched c1Start).os = ""
    ∧ (LogSys.exec c1Sched c1Start).buffer = ""
    ∧ (LogSys.exec c1Sched c1Start).outBuf = ""
    ∧ (LogSys.exec c1Sched c1Start).openName = none
    ∧ (LogSys.exec c1Sched c1Start).dpc = DrainPc.done := by
  refine ⟨by decide, by decide, by decide, by decide, by decide, ?_, ?_⟩
  · show (LogSys.exec c1Sched c1Start).openName = none
    rfl
  · rfl

/-- Claim C2 amended: `LogImpl::Write` tries the buffer lock with the
bounded 10 ms `Wait_Time_glob` timeout; on success it appends the text
to the drain accumulator and returns true; on timeout it returns false
— a boolean, not an exception — without appending; but the timed-out
text is not dropped: the caller `Logger::Flush` clears `m_Os` only on
success, so the text stays in the front accumulator and a later flush
delivers it. -/
theorem C2_append_timeout_behavior (s : LogSys) (t : String) :
    LogImpl.Write LockOutcome.timedOut s t = Except.ok (false, s)
    ∧ LogImpl.Write LockOutcome.acquired s t
        = Except.ok (true, { s with buffer := s.buffer ++ t })
    ∧ Logger.Flush LockOutcome.timedOut s = Except.ok s
    ∧ Logger.Flush LockOutcome.acquired s
        = Except.ok { s with buffer := s.buffer ++ s.os, os := "" }
    ∧ Wait_Time_glob = 10 :=
  ⟨rfl, rfl, rfl, rfl, rfl⟩

/-- A logger state with a line pending in the front accumulator. -/
def c2LogState : LogSys := { logInit with os := "hello" }

/-- Claim C2 counterexample: after a flush whose lock acquisition timed
out, the text is still in `m_Os` (the state is returned unchanged), and
the next flush that wins the lock moves the very same text into the
drain buffer — the timed-out text is buffered for a later retry, not
dropped. -/
theorem C2_timeout_text_retained :
    Logger.Flush LockOutcome.timedOut c2LogState = Except.ok c2LogState
    ∧ c2LogState.os = "hello"
    ∧ (match Logger.Flush LockOutcome.acquired c2LogState with
       | .ok s1 => s1.buffer
       | .error _ => "") = "hello"
    ∧ (match Logger.Flush LockOutcome.acquired c2LogState with
       | .ok s1 => s1.os
       | .error _ => "x") = "" :=
  ⟨rfl, rfl, by decide, by decide⟩

/-- Claim C3: teardown of a writer that was never activated is a no-op;
teardown of an activated writer with an open destination clears the
continuation flag and, under the buffer lock, force-writes all residual
buffered text (both the drain accumulator and the front accumulator) to
the destination before closing it — no buffered byte is discarded by the
teardown path itself. -/
theorem C3_teardown_drains_residual (s : LogSys) (n : String) :
    (s.threadStarted = false → LogImpl.dtor s = s)
    ∧ (s.threadStarted = true → s.openName = some n →
        ((LogImpl.dtor s).files n = s.files n ++ (s.buffer ++ s.os)
         ∧ (LogImpl.dtor s).openName = none
         ∧ (LogImpl.dtor s).contFlag = false
         ∧ (LogImpl.dtor s).buffer = ""
         ∧ (LogImpl.dtor s).os = "")) := by
  constructor
  · intro h
    simp [LogImpl.dtor, h]
  · intro h hn
    simp [LogImpl.dtor, h, LogImpl.ForceWrite, LogSys.emit, hn,
      LogImpl.CloseFile]

/-- An activated writer with residual text in both accumulators. -/
def c3LogState : LogSys :=
  { logInit with threadStarted := true, openName := some "log",
                 buffer := "buf", os := "os", contFlag := true }

/-- Witness for C3: the concrete activated writer gets both residual
accumulators appended to its file and its destination closed, while the
never-activated writer is untouched. -/
theorem C3_teardown_drains_residual_witness :
    (LogImpl.dtor c3LogState).files "log"
      = c3LogState.files "log" ++ (c3LogState.buffer ++ c3LogState.os)
    ∧ (LogImpl.dtor c3LogState).openName = none
    ∧ LogImpl.dtor logInit = logInit :=
  ⟨((C3_teardown_drains_residual c3LogState "log").2 rfl rfl).1,
   ((C3_teardown_drains_residual c3LogState "log").2 rfl rfl).2.1,
   (C3_teardown_drains_residual logInit "log").1 rfl⟩

/-- Claim C8 counterexample: in the one-shot `SimpleThreadCoord`
variant, `Run` when the events already exist (the already-running case)
throws an error rather than logging, and `SignalStop`/`WaitForStop`
before any `Run` dereference a null event — so misuse is not "at most
logged, never an error" in each coordinator variant. -/
theorem C8_simple_variant_misuse_raises :
    SimpleThreadCoord.RunStart
      { stopEv := some false, stoppedEv := some false }
      = Except.error STCErr.alreadyCreated
    ∧ SimpleThreadCoord.SignalStop { stopEv := none, stoppedEv := none }
      = Except.error STCErr.nullDeref
    ∧ SimpleThreadCoord.WaitForStop { stopEv := none, stoppedEv := none }
      = Except.error STCErr.nullDeref :=
  ⟨rfl, rfl, rfl⟩

/-- Claim C8 amended: in the re-entrant `ThreadCoord` variant, `Run`
while running and `SignalStop`/`WaitForStop` while not running are
logged no-ops and never errors; in the one-shot `SimpleThreadCoord`
variant, `Run` with the events already created throws, and
`SignalStop`/`WaitForStop` with null events dereference null instead of
logging. -/
theorem C8_misuse_handling :
    (∀ s : TCState, s.running = true → ThreadCoord.RunEnter s = s)
    ∧ (∀ s : TCState, s.running = false → ThreadCoord.SignalStop s = s)
    ∧ (∀ s : TCState, s.running = false → ThreadCoord.WaitForStop s = s)
    ∧ (∀ t : STCState, (t.stopEv.isSome || t.stoppedEv.isSome) = true →
        SimpleThreadCoord.RunStart t = Except.error STCErr.alreadyCreated)
    ∧ (∀ t : STCState, t.stopEv = none →
        SimpleThreadCoord.SignalStop t = Except.error STCErr.nullDeref)
    ∧ (∀ t : STCState, t.stopEv = none →
        SimpleThreadCoord.WaitForStop t = Except.error STCErr.nullDeref) := by
  refine ⟨fun s h => runEnter_running s h,
          fun s h => by simp [ThreadCoord.SignalStop, h],
          fun s h => by simp [ThreadCoord.WaitForStop, h],
          fun t h => by simp [SimpleThreadCoord.RunStart, h],
          fun t h => by simp [SimpleThreadCoord.SignalStop, h],
          fun t h => by simp [SimpleThreadCoord.WaitForStop, h]⟩

/-- Witness for C8 at concrete states: the fresh re-entrant coordinator
ignores `SignalStop` and `WaitForStop`, and a running one ignores
`Run`. -/
theorem C8_misuse_handling_witness :
    ThreadCoord.SignalStop tcInit = tcInit
    ∧ ThreadCoord.WaitForStop tcInit = tcInit
    ∧ ThreadCoord.RunEnter { tcInit with running := true }
      = { tcInit with running := true }
    ∧ SimpleThreadCoord.SignalStop { stopEv := none, stoppedEv := none }
      = Except.error STCErr.nullDeref :=
  ⟨C8_misuse_handling.2.1 tcInit rfl,
   C8_misuse_handling.2.2.1 tcInit rfl,
   C8_misuse_handling.1 { tcInit with running := true } rfl,
   C8_misuse_handling.2.2.2.2.1 { stopEv := none, stoppedEv := none } rfl⟩

/-- Result state of a `SetFile` call (the object state after the call,
whether it returned or threw). -/
def setFileOut (openOk lockOk : Bool) (n : String) (s : LogSys) : LogSys :=
  match Logger.SetFile openOk lockOk n s with
  | .ok (_, t) => t
  | .error _ => s

/-- Return value of a `SetFile` call that returned. -/
def setFileRet (openOk lockOk : Bool) (n : String) (s : LogSys) : Bool :=
  match Logger.SetFile openOk lockOk n s with
  | .ok (b, _) => b
  | .error _ => false

/-- A file store in which `"log"` already holds content. -/
def c9FileStore : String → String := fun m => if m = "log" then "old" else ""

/-- A fresh logger over a file store with pre-existing content. -/
def c9LogStart : LogSys := { logInit with files := c9FileStore }

/-- Claim C9 counterexample: activating onto an existing file destroys
its previous content — `m_Of.open(fileName)` opens with the default
truncating mode, not for append, so the prior bytes `"old"` are gone
after a successful `SetFile`. -/
theorem C9_open_truncates :
    c9LogStart.files "log" = "old"
    ∧ (setFileOut true true "log" c9LogStart).files "log" = ""
    ∧ (setFileOut true true "log" c9LogStart).files "log"
      ≠ c9LogStart.files "log" :=
  ⟨rfl, by decide, by decide⟩

/-- Claim C9 amended: `SetFile` closes any previously open destination
before opening the named sink for writing (truncating existing content);
a failed open is reported as a false return and the background thread is
not started by that call; the drain thread and the buffer mutex are
created on the first successful activation only; and a failed mutex
allocation is raised to the caller as an initialization error. -/
theorem C9_activation (lockOk : Bool) (n : String) (s : LogSys) :
    (setFileRet false lockOk n s = false
     ∧ (setFileOut false lockOk n s).openName = none
     ∧ (setFileOut false lockOk n s).threadStarted = s.threadStarted
     ∧ (setFileOut false lockOk n s).threadSpawns = s.threadSpawns
     ∧ (setFileOut false lockOk n s).lockAllocs = s.lockAllocs)
    ∧ (s.threadStarted = false →
        (setFileRet true true n s = true
         ∧ (setFileOut true true n s).openName = some n
         ∧ (setFileOut true true n s).files n = ""
         ∧ (setFileOut true true n s).threadStarted = true
         ∧ (setFileOut true true n s).contFlag = true
         ∧ (setFileOut true true n s).threadSpawns = s.threadSpawns + 1
         ∧ (setFileOut true true n s).lockAllocs = s.lockAllocs + 1))
    ∧ (s.threadStarted = true →
        (setFileRet true lockOk n s = true
         ∧ (setFileOut true lockOk n s).openName = some n
         ∧ (setFileOut true lockOk n s).threadSpawns = s.threadSpawns
         ∧ (setFileOut true lockOk n s).lockAllocs = s.lockAllocs))
    ∧ (s.threadStarted = false →
        Logger.SetFile true false n s
          = Except.error LogInitErr.initFailure) := by
  refine ⟨?_, ?_, ?_, ?_⟩
  · cases ho : s.openName <;>
      simp [setFileRet, setFileOut, Logger.SetFile, LogImpl.OpenFile,
        LogImpl.CloseFile, ho]
  · intro h
    cases ho : s.openName <;>
      simp [setFileRet, setFileOut, Logger.SetFile, LogImpl.OpenFile,
        LogImpl.CloseFile, LogImpl.StartThread, ho, h]
  · intro h
    cases ho : s.openName <;>
      simp [setFileRet, setFileOut, Logger.SetFile, LogImpl.OpenFile,
        LogImpl.CloseFile, LogImpl.StartThread, ho, h]
  · intro h
    cases ho : s.openName <;>
      simp [Logger.SetFile, LogImpl.OpenFile, LogImpl.CloseFile,
        LogImpl.StartThread, ho, h]

/-- Witness for C9 at concrete states: first activation succeeds and
spawns the thread and mutex exactly once; a second activation spawns
nothing further; a failed open on the fresh state leaves the thread
unstarted; and a failed mutex allocation surfaces the initialization
error. -/
theorem C9_activation_witness :
    setFileRet true true "log" logInit = true
    ∧ (setFileOut true true "log" logInit).threadSpawns
      = logInit.threadSpawns + 1
    ∧ (setFileOut true true "log2" (setFileOut true true "log" logInit)).threadSpawns
      = (setFileOut true true "log" logInit).threadSpawns
    ∧ (setFileOut false true "log" logInit).threadStarted
      = logInit.threadStarted
    ∧ Logger.SetFile true false "log" logInit
      = Except.error LogInitErr.initFailure :=
  ⟨((C9_activation true "log" logInit).2.1 rfl).1,
   ((C9_activation true "log" logInit).2.1 rfl).2.2.2.2.2.1,
   ((C9_activation true "log2" (setFileOut true true "log" logInit)).2.2.1
     (by decide)).2.2.1,
   (C9_activation true "log" logInit).1.2.2.1,
   (C9_activation false "log" logInit).2.2.2 rfl⟩

/-- Claim C10: copy-assignment of either coordinator variant transfers
only the work function and leaves the destination's event handles and
running flag unchanged; copy construction of the re-entrant variant
yields null events and a false running flag; hence the by-value
assignment inside `ThreadObj::Run` always produces a member coordinator
with absent signals for `Run` to create fresh. -/
theorem C10_copy_transfers_only_work {F : Type}
    (dst src : ThreadCoordObj F) (d2 s2 : SimpleThreadCoordObj F)
    (f0 : F) :
    ((dst.assign src).stopEvent = dst.stopEvent
     ∧ (dst.assign src).stoppedEvent = dst.stoppedEvent
     ∧ (dst.assign src).isRunning = dst.isRunning
     ∧ (dst.assign src).userFunc = src.userFunc)
    ∧ ((ThreadCoordObj.copyCtor src).stopEvent = none
       ∧ (ThreadCoordObj.copyCtor src).stoppedEvent = none
       ∧ (ThreadCoordObj.copyCtor src).isRunning = false
       ∧ (ThreadCoordObj.copyCtor src).userFunc = src.userFunc)
    ∧ ((d2.assign s2).stopEvent = d2.stopEvent
       ∧ (d2.assign s2).stoppedEvent = d2.stoppedEvent
       ∧ (d2.assign s2).userFunc = s2.userFunc)
    ∧ ((ThreadObj.runAssign (ThreadCoordObj.mkDefault f0) src).stopEvent = none
       ∧ (ThreadObj.runAssign (ThreadCoordObj.mkDefault f0) src).stoppedEvent
         = none
       ∧ (ThreadObj.runAssign (ThreadCoordObj.mkDefault f0) src).isRunning
         = false
       ∧ (ThreadObj.runAssign (ThreadCoordObj.mkDefault f0) src).userFunc
         = src.userFunc) :=
  ⟨⟨rfl, rfl, rfl, rfl⟩, ⟨rfl, rfl, rfl, rfl⟩, ⟨rfl, rfl, rfl⟩,
   ⟨rfl, rfl, rfl, rfl⟩⟩

end Nik
